import Mathlib

set_option autoImplicit false

/-!
Shallow embedding of `src/load_data.py` from the NASA-Missions-Dashboard
repository: the CSV normalisation pipeline (`normalize`), CSV input
resolution (`read_input`), the NASA API fetch helpers and the database
initialisation entry point (`ensure_database`), together with theorems
checking the specification's claims about them.
-/

namespace NasaLoad

/-- A cell of a pandas DataFrame: missing (`NaN`/`None`/`NaT`/`<NA>`), a
string, or a number.  Numbers are modelled as rationals. -/
inductive Value where
  | null
  | str (s : String)
  | num (q : Rat)
deriving DecidableEq

/-- Python `str.zfill`: left-pad with `'0'` up to the given width. -/
def zfill (w : Nat) (s : String) : String :=
  if s.length < w then String.mk (List.replicate (w - s.length) '0') ++ s else s

/-- Value of a digit run, most significant first. -/
def digitsVal (l : List Char) : Nat :=
  l.foldl (fun n c => 10 * n + (c.toNat - 48)) 0

/-- Python `str.strip` (and pandas `.str.strip()`): drop whitespace from
both ends. -/
def strTrim (s : String) : String :=
  String.mk (((s.toList.dropWhile Char.isWhitespace).reverse.dropWhile
    Char.isWhitespace).reverse)

/-- Python `str.lower` (ASCII case folding). -/
def strToLower (s : String) : String :=
  String.mk (s.toList.map Char.toLower)

/-- Python `str.startswith` for one candidate. -/
def strStartsWith (s pre : String) : Bool :=
  List.isPrefixOf pre.toList s.toList

/-- Python slicing `s[:n]`. -/
def strTake (s : String) (n : Nat) : String :=
  String.mk (s.toList.take n)

/-- Split a character list at each `'-'` (the shape Python's
`"...".split("-")` and `str.splitOn "-"` produce). -/
def splitDash : List Char → List (List Char)
  | [] => [[]]
  | c :: rest =>
    if c = '-' then [] :: splitDash rest
    else
      match splitDash rest with
      | h :: t => (c :: h) :: t
      | [] => [[c]]

/-- Model of `pd.to_numeric(..., errors="coerce")` on a string: an optional
sign, a non-empty digit run and an optional fractional part.  Inputs outside
this grammar (the model leaves out scientific form and surrounding blanks)
coerce to null. -/
def parseNum (s : String) : Option Rat :=
  let cs := s.toList
  let signed : Bool × List Char :=
    match cs with
    | '-' :: rest => (true, rest)
    | '+' :: rest => (false, rest)
    | _ => (false, cs)
  let intPart := signed.2.takeWhile Char.isDigit
  let rest := signed.2.dropWhile Char.isDigit
  if intPart.isEmpty then none
  else
    match rest with
    | [] =>
        let n : Rat := (digitsVal intPart : Nat)
        some (if signed.1 then -n else n)
    | '.' :: frac =>
        if frac.all Char.isDigit then
          let n : Rat :=
            (digitsVal intPart : Nat) + (digitsVal frac : Nat) / ((10 : Rat) ^ frac.length)
          some (if signed.1 then -n else n)
        else none
    | _ => none

/-- Gregorian leap years, as Python's `datetime` uses. -/
def isLeapYear (y : Nat) : Bool :=
  (y % 4 == 0 && y % 100 != 0) || y % 400 == 0

/-- Days in a month of the Gregorian calendar. -/
def daysInMonth (y m : Nat) : Nat :=
  if m == 2 then (if isLeapYear y then 29 else 28)
  else if m == 4 || m == 6 || m == 9 || m == 11 then 30
  else 31

/-- A calendar date. -/
structure Date where
  year : Nat
  month : Nat
  day : Nat
deriving DecidableEq

/-- Model of `pd.to_datetime(..., errors="coerce")` on a string, restricted to
ISO-style `Y-M-D` inputs: three dash-separated digit runs forming a valid
calendar date.  Anything else coerces to null (`NaT`). -/
def parseDate (s : String) : Option Date :=
  match splitDash s.toList with
  | [ys, ms, ds] =>
    if !ys.isEmpty && ys.all Char.isDigit
        && !ms.isEmpty && ms.all Char.isDigit
        && !ds.isEmpty && ds.all Char.isDigit then
      let y := digitsVal ys
      let m := digitsVal ms
      let d := digitsVal ds
      if 1 ≤ m ∧ m ≤ 12 ∧ 1 ≤ d ∧ d ≤ daysInMonth y m then some ⟨y, m, d⟩ else none
    else none
  | _ => none

/-- Python `str(datetime.date(...))`: `YYYY-MM-DD`, zero padded. -/
def printDate (d : Date) : String :=
  zfill 4 (toString d.year) ++ "-" ++ zfill 2 (toString d.month) ++ "-" ++ zfill 2 (toString d.day)

/-- `pd.isna` on one cell. -/
def Value.isNull : Value → Bool
  | .null => true
  | _ => false

/-- `pd.to_numeric(..., errors="coerce")` applied to one cell. -/
def toNumericCell : Value → Value
  | .null => .null
  | .num q => .num q
  | .str s => match parseNum s with | some q => .num q | none => .null

/-- `pd.to_datetime(col, errors="coerce")` on one cell.  Numeric cells (epoch
timestamps in pandas) are not modelled and coerce to null. -/
def parseDateCell : Value → Option Date
  | .str s => parseDate s
  | _ => none

/-- Lines 98-99 of `load_data.py`: `to_datetime(...).dt.date` then
`astype("string")` on one cell; `NaT` becomes a null cell. -/
def dateCell (v : Value) : Value :=
  match parseDateCell v with
  | some d => .str (printDate d)
  | none => .null

/-- Line 100: `to_datetime(df["launch_date"], errors="coerce").dt.year` on one
cell of the already re-stringified date column. -/
def yearCell (v : Value) : Value :=
  match parseDateCell v with
  | some d => .num (d.year : Rat)
  | none => .null

/-- Line 116: `.astype("string").str.strip()` on one cell; numeric cells are
rendered with `toString` before stripping. -/
def stripCell : Value → Value
  | .null => .null
  | .str s => .str (strTrim s)
  | .num q => .str (strTrim (toString q))

/-- One DataFrame row: an association list from column name to cell. -/
abbrev Row := List (String × Value)

namespace Row

/-- Cell lookup: the first entry with the given key (a real DataFrame has
unique column names); absent keys read as null. -/
def get : Row → String → Value
  | [], _ => .null
  | p :: r, c => if p.1 = c then p.2 else get r c

/-- Cell write: replace the first entry with the key, or append a new
column at the end (as a pandas column assignment does). -/
def set : Row → String → Value → Row
  | [], c, v => [(c, v)]
  | p :: r, c, v => if p.1 = c then (c, v) :: r else p :: set r c v

end Row

/-- A DataFrame: column names plus rows (keyed by column name). -/
structure DataFrame where
  cols : List String
  rows : List Row
deriving DecidableEq

/-- `COLUMN_MAP` (lines 38-54). -/
def COLUMN_MAP : List (String × String) :=
  [("Mission ID", "mission_id"),
   ("Mission Name", "mission_name"),
   ("Launch Date", "launch_date"),
   ("Target Type", "target_type"),
   ("Target Name", "target_name"),
   ("Mission Type", "mission_type"),
   ("Distance from Earth (light-years)", "distance_ly"),
   ("Mission Duration (years)", "duration_years"),
   ("Mission Cost (billion USD)", "cost_billion_usd"),
   ("Scientific Yield (points)", "scientific_yield"),
   ("Crew Size", "crew_size"),
   ("Mission Success (%)", "success_pct"),
   ("Fuel Consumption (tons)", "fuel_consumption_tons"),
   ("Payload Weight (tons)", "payload_weight_tons"),
   ("Launch Vehicle", "launch_vehicle")]

/-- `NUMERIC_COLS` (lines 56-65). -/
def NUMERIC_COLS : List String :=
  ["distance_ly",
   "duration_years",
   "cost_billion_usd",
   "scientific_yield",
   "crew_size",
   "success_pct",
   "fuel_consumption_tons",
   "payload_weight_tons"]

/-- The expected human-readable column names, `COLUMN_MAP.keys()`. -/
def EXPECTED_COLS : List String := COLUMN_MAP.map Prod.fst

/-- Rename one column name through `COLUMN_MAP` (line 95); names outside the
map are kept. -/
def renameCol (c : String) : String :=
  match COLUMN_MAP.find? (fun p => p.1 == c) with
  | some p => p.2
  | none => c

/-- `df.rename(columns=COLUMN_MAP)` on one row. -/
def renameRow (r : Row) : Row :=
  r.map (fun p => (renameCol p.1, p.2))

/-- The key text fields stripped at lines 114-116. -/
def TEXT_COLS : List String :=
  ["mission_name", "target_type", "target_name", "mission_type", "launch_vehicle"]

/-- Lines 97-104 on one (renamed) row: launch date parsing, year derivation
from the re-stringified date, numeric coercion. -/
def rowStage1 (r : Row) : Row :=
  let r := r.set "launch_date" (dateCell (r.get "launch_date"))
  let r := r.set "launch_year" (yearCell (r.get "launch_date"))
  NUMERIC_COLS.foldl (fun r c => r.set c (toNumericCell (r.get c))) r

/-- `"MSN-" + str(i + 1).zfill(4)` for the 0-based row position `i`
(lines 109-110; the default RangeIndex makes `df.index + 1` the 1-based
row position). -/
def missionToken (i : Nat) : String :=
  "MSN-" ++ zfill 4 (toString (i + 1))

/-- Lines 109-111 on one row: the masked assignment replacing an empty
identifier by the synthesized token. -/
def missionIdMask (i : Nat) (r : Row) : Row :=
  if r.get "mission_id" = .str "" then r.set "mission_id" (.str (missionToken i)) else r

/-- Lines 108-111 on one row: `fillna("")` on the identifier cell, then the
masked assignment. -/
def missionIdStep (i : Nat) (r : Row) : Row :=
  missionIdMask i
    (r.set "mission_id" (if (r.get "mission_id").isNull then .str "" else r.get "mission_id"))

/-- Lines 113-116 on one row: strip the key text fields that are present. -/
def stripSteps (cols : List String) (r : Row) : Row :=
  TEXT_COLS.foldl (fun r c => if c ∈ cols then r.set c (stripCell (r.get c)) else r) r

/-- `List.map` with the element's position. -/
def mapWithIndex {α β : Type} (f : Nat → α → β) : Nat → List α → List β
  | _, [] => []
  | i, a :: l => f i a :: mapWithIndex f (i + 1) l

/-- A pandas column assignment `df[c] = ...` appends column `c` when absent. -/
def addCol (cols : List String) (c : String) : List String :=
  if c ∈ cols then cols else cols ++ [c]

/-- The fatal loader errors. -/
inductive LoadError where
  /-- `ValueError` of line 93, carrying the missing-column list. -/
  | validation (missing : List String)
  /-- `FileNotFoundError` of line 77, carrying the path. -/
  | notFound (path : String)
deriving DecidableEq

/-- The column list after the assignments of lines 95-104: renamed source
columns, then `df[c] = ...` appends `launch_date`, `launch_year` and each
numeric column at the end when absent. -/
def normCols2 (df : DataFrame) : List String :=
  NUMERIC_COLS.foldl addCol (addCol (addCol (df.cols.map renameCol) "launch_date") "launch_year")

/-- The guard of line 107: `"mission_id" not in df or
df["mission_id"].isna().any()`, evaluated on the frame state after
lines 95-104. -/
def normGuard (df : DataFrame) : Bool :=
  !((normCols2 df).contains "mission_id")
    || (df.rows.map (fun r => rowStage1 (renameRow r))).any (fun r => (r.get "mission_id").isNull)

/-- The column list of the normalised frame (the fill of lines 108-111 can
append `mission_id`; the strip of lines 113-116 assigns only to columns
already present). -/
def normCols (df : DataFrame) : List String :=
  if normGuard df then addCol (normCols2 df) "mission_id" else normCols2 df

/-- Lines 95-116 on the row at 0-based position `i`: rename, date parsing
and year derivation, numeric coercion, the guarded identifier fill, and the
text strip.  The column-wise pandas operations act element-wise, so they are
rendered row-wise here with the same per-cell functions in source order. -/
def normRow (df : DataFrame) (i : Nat) (r : Row) : Row :=
  let r1 := rowStage1 (renameRow r)
  let r2 := if normGuard df then missionIdStep i r1 else r1
  stripSteps (normCols df) r2

/-- The success path of `normalize` (lines 95-118). -/
def normalizeOk (df : DataFrame) : DataFrame :=
  { cols := normCols df, rows := mapWithIndex (normRow df) 0 df.rows }

/-- `normalize` (lines 90-118): validate the expected columns (lines 91-93),
then rename and coerce. -/
def normalize (df : DataFrame) : Except LoadError DataFrame :=
  let missing := EXPECTED_COLS.filter (fun c => !(df.cols.contains c))
  if missing ≠ [] then .error (.validation missing) else .ok (normalizeOk df)

/-- Where `read_input` points `pd.read_csv`. -/
inductive ReadAction where
  | fromUrl (url : String)
  | fromLocal (path : String)
deriving DecidableEq

/-- `DEFAULT_CSV_PATH` (line 25). -/
def DEFAULT_CSV_PATH : String :=
  "C:\\Users\\sujit\\PycharmProjects\\PythonProject1\\space_missions_dataset.csv"

/-- `DEFAULT_CSV_URL` (line 26). -/
def DEFAULT_CSV_URL : String := "/images/space-missions-dataset.csv"

/-- Lines 81-87: the fallbacks when no explicit `--csv` was given. -/
def readFallback (diskHas : String → Bool) : ReadAction :=
  if !DEFAULT_CSV_PATH.isEmpty && diskHas DEFAULT_CSV_PATH then .fromLocal DEFAULT_CSV_PATH
  else .fromUrl DEFAULT_CSV_URL

/-- `read_input` (lines 68-87), with the filesystem abstracted as an
existence predicate.  A `some ""` argument is falsy in Python and behaves
like `none`. -/
def read_input (csvArg : Option String) (diskHas : String → Bool) :
    Except LoadError ReadAction :=
  match csvArg with
  | some p =>
    if p.isEmpty then .ok (readFallback diskHas)
    else if strStartsWith (strToLower p) "http://" || strStartsWith (strToLower p) "https://" then
      .ok (.fromUrl p)
    else if !(diskHas p) then .error (.notFound p)
    else .ok (.fromLocal p)
  | none => .ok (readFallback diskHas)

/-- Outcome of one HTTP request inside a fetch helper: an exception raised
while requesting or decoding (connection failure, timeout, `.json()` parse
error), or a response with a status code and decoded body. -/
inductive Outcome (α : Type) where
  | exn
  | resp (status : Nat) (body : α)
deriving DecidableEq

/-- The JSON body a successful APOD request decodes to (`data.get` keys of
lines 154-158). -/
structure ApodJson where
  date : Option String
  title : Option String
  explanation : Option String
  url : Option String
  media_type : Option String
deriving DecidableEq

/-- One record appended to `apod_data` (lines 153-160). -/
structure ApodEntry where
  date : Option String
  title : Option String
  explanation : String
  url : Option String
  media_type : Option String
  source : String
deriving DecidableEq

/-- Lines 153-160: build one APOD record; the explanation defaults to `""`
and is truncated to 500 characters. -/
def mkApodEntry (b : ApodJson) : ApodEntry :=
  { date := b.date, title := b.title,
    explanation := strTake (b.explanation.getD "") 500,
    url := b.url, media_type := b.media_type, source := "APOD" }

/-- The loop of lines 144-161, over day offsets `i`.  An exception leaves the
entries accumulated so far in `apod_data` and transfers control to the
handler of lines 162-163, which keeps them; a non-200 status appends
nothing and continues. -/
def apodLoop (request : Nat → Outcome ApodJson) :
    Nat → Nat → List ApodEntry → List ApodEntry
  | _, 0, acc => acc
  | i, n + 1, acc =>
    match request i with
    | .exn => acc
    | .resp status b =>
      if status = 200 then apodLoop request (i + 1) n (acc ++ [mkApodEntry b])
      else apodLoop request (i + 1) n acc

/-- `fetch_nasa_apod` (lines 132-165), with the per-day request abstracted
as an oracle from day offset to outcome. -/
def fetch_nasa_apod (days : Nat) (request : Nat → Outcome ApodJson) : List ApodEntry :=
  apodLoop request 0 days []

/-- One element of a `near_earth_objects` group (lines 196-206).  An element
of `close_approach` is the decoded
`relative_velocity.kilometers_per_second` chain; `close_approach = none`
models an absent `close_approach_data` key, defaulted to `[{}]` at
line 203, while `some []` models a present empty list, on which `[0]`
raises `IndexError`. -/
structure NeoObj where
  name : Option String
  diameter_km : Option Rat
  hazardous : Option Bool
  close_approach : Option (List (Option String))
deriving DecidableEq

/-- The JSON body a successful NEO request decodes to. -/
structure NeoJson where
  near_earth_objects : List (String × List NeoObj)
deriving DecidableEq

/-- One record appended to `neo_data` (lines 197-206). -/
structure NeoEntry where
  date : String
  name : Option String
  diameter_km : Option Rat
  hazardous : Option Bool
  velocity_kms : Option String
  source : String
deriving DecidableEq

/-- Lines 197-206: build one NEO record; `none` when the build raises
`IndexError` (present but empty `close_approach_data`). -/
def mkNeoEntry (date : String) (o : NeoObj) : Option NeoEntry :=
  match o.close_approach with
  | some [] => none
  | some (v :: _) =>
    some { date, name := o.name, diameter_km := o.diameter_km,
           hazardous := o.hazardous, velocity_kms := v, source := "NEO" }
  | none =>
    some { date, name := o.name, diameter_km := o.diameter_km,
           hazardous := o.hazardous, velocity_kms := none, source := "NEO" }

/-- Inner loop of lines 196-206 over one date group; the Bool reports an
escaped `IndexError`. -/
def neoInner (date : String) : List NeoObj → List NeoEntry → List NeoEntry × Bool
  | [], acc => (acc, false)
  | o :: rest, acc =>
    match mkNeoEntry date o with
    | none => (acc, true)
    | some e => neoInner date rest (acc ++ [e])

/-- Outer loop of lines 195-206 over the date-keyed groups. -/
def neoOuter : List (String × List NeoObj) → List NeoEntry → List NeoEntry × Bool
  | [], acc => (acc, false)
  | (d, objs) :: rest, acc =>
    let r := neoInner d objs acc
    if r.2 then r else neoOuter rest r.1

/-- `fetch_nasa_neo` (lines 168-211): a single request; any exception is
caught at lines 208-209 keeping whatever was accumulated. -/
def fetch_nasa_neo (request : Outcome NeoJson) : List NeoEntry :=
  match request with
  | .exn => []
  | .resp status b =>
    if status = 200 then (neoOuter b.near_earth_objects []).1 else []

/-- One row of the exoplanet query result (lines 240-248). -/
structure ExoRow where
  pl_name : Option String
  sy_pnum : Option Int
  pl_rade : Option Rat
  pl_bmasse : Option Rat
  sy_dist : Option Rat
  disc_year : Option Int
deriving DecidableEq

/-- One record appended to `exoplanet_data` (lines 241-249). -/
structure ExoEntry where
  name : Option String
  planet_count : Option Int
  radius_earth : Option Rat
  mass_earth : Option Rat
  distance_pc : Option Rat
  discovery_year : Option Int
  source : String
deriving DecidableEq

/-- Lines 241-249: build one exoplanet record. -/
def mkExoEntry (p : ExoRow) : ExoEntry :=
  { name := p.pl_name, planet_count := p.sy_pnum, radius_earth := p.pl_rade,
    mass_earth := p.pl_bmasse, distance_pc := p.sy_dist,
    discovery_year := p.disc_year, source := "Exoplanet Archive" }

/-- `fetch_nasa_exoplanet` (lines 214-254): a single request mapped
row-by-row; exceptions are caught at lines 251-252. -/
def fetch_nasa_exoplanet (request : Outcome (List ExoRow)) : List ExoEntry :=
  match request with
  | .exn => []
  | .resp status b => if status = 200 then b.map mkExoEntry else []

/-- What a successful `requests.head` exposes at line 287: the final URL. -/
structure EarthResp where
  url : String
deriving DecidableEq

/-- The fixed location list of lines 265-270, as (lon, lat, name). -/
def EARTH_LOCATIONS : List (Rat × Rat × String) :=
  [(-74.0060, 40.7128, "New York City"),
   (139.6917, 35.6895, "Tokyo"),
   (-0.1278, 51.5074, "London"),
   (151.2093, -33.8688, "Sydney")]

/-- One record appended to `earth_data` (lines 283-289). -/
structure EarthEntry where
  location : String
  latitude : Rat
  longitude : Rat
  url : String
  source : String
deriving DecidableEq

/-- The loop of lines 273-290 over the location list; an exception keeps the
accumulated entries (handler at lines 291-292). -/
def earthLoop (request : Nat → Outcome EarthResp) :
    Nat → List (Rat × Rat × String) → List EarthEntry → List EarthEntry
  | _, [], acc => acc
  | i, loc :: rest, acc =>
    match request i with
    | .exn => acc
    | .resp status b =>
      if status = 200 then
        earthLoop request (i + 1) rest
          (acc ++ [{ location := loc.2.2, latitude := loc.2.1, longitude := loc.1,
                     url := b.url, source := "Earth Imagery" }])
      else earthLoop request (i + 1) rest acc

/-- `fetch_nasa_earth_imagery` (lines 257-294). -/
def fetch_nasa_earth_imagery (request : Nat → Outcome EarthResp) : List EarthEntry :=
  earthLoop request 0 EARTH_LOCATIONS []

/-- The stored database contents the claims are about.  `missions` is `none`
when the `missions` table is absent; auxiliary tables are plain lists
(auto-increment ids and `fetched_at` timestamps are not modelled). -/
structure DB where
  missions : Option (List Row)
  apod : List ApodEntry
  neo : List NeoEntry
  exoplanet : List ExoEntry
  earth_imagery : List EarthEntry
deriving DecidableEq

/-- A freshly created database file. -/
def emptyDB : DB :=
  { missions := none, apod := [], neo := [], exoplanet := [], earth_imagery := [] }

/-- Modelled from the spec: `schema.sql` is referenced at line 36 but is not
under `src/`; per §4.2 the schema script "drops and recreates the mission
table unconditionally", leaving the auxiliary tables alone
(`recreate_schema`, lines 121-125). -/
def recreate_schema (db : DB) : DB := { db with missions := some [] }

/-- `insert_data` (lines 128-129): `to_sql(..., if_exists="append")` appends
the normalised rows, creating the table when absent. -/
def insert_data (db : DB) (rows : List Row) : DB :=
  { db with missions := some (db.missions.getD [] ++ rows) }

/-- `store_nasa_data` (lines 297-389): auxiliary tables are created only `IF
NOT EXISTS` (an absent table is the empty list here) and every fetched
record is appended. -/
def store_nasa_data (db : DB) (a : List ApodEntry) (n : List NeoEntry)
    (e : List ExoEntry) (g : List EarthEntry) : DB :=
  { db with apod := db.apod ++ a, neo := db.neo ++ n,
            exoplanet := db.exoplanet ++ e, earth_imagery := db.earth_imagery ++ g }

/-- The external world one `ensure_database` run observes: the DataFrame the
CSV read of line 421 produces, and the four network oracles. -/
structure World where
  csv : DataFrame
  apodReq : Nat → Outcome ApodJson
  neoReq : Outcome NeoJson
  exoReq : Outcome (List ExoRow)
  earthReq : Nat → Outcome EarthResp

/-- Observable side effects of one `ensure_database` run. -/
structure RunLog where
  schemaRuns : Nat
deriving DecidableEq

/-- The skip guard of lines 399-417: the database file exists, the
`missions` table exists, and it holds at least one row. -/
def populated : Option DB → Bool
  | some db =>
    match db.missions with
    | some rows => rows.length != 0
    | none => false
  | none => false

/-- `ensure_database` (lines 392-447).  `store` is `none` when no file exists
at `db_path`; the result pairs the database contents after the run with how
often the schema script ran. -/
def ensure_database (store : Option DB) (w : World) : Except LoadError (DB × RunLog) :=
  -- lines 399-417: skip when missions exists and holds rows
  if populated store then .ok (store.getD emptyDB, { schemaRuns := 0 })
  else
    -- lines 420-424: read and normalise (a failure propagates)
    match normalize w.csv with
    | .error e => .error e
    | .ok df =>
      -- line 427: connecting creates the file when absent
      let db0 := store.getD emptyDB
      let db1 := recreate_schema db0
      let db2 := insert_data db1 df.rows
      -- lines 432-438: the four fetches, then the auxiliary store
      let apod_data := fetch_nasa_apod 7 w.apodReq
      let neo_data := fetch_nasa_neo w.neoReq
      let exoplanet_data := fetch_nasa_exoplanet w.exoReq
      let earth_data := fetch_nasa_earth_imagery w.earthReq
      let db3 := store_nasa_data db2 apod_data neo_data exoplanet_data earth_data
      .ok (db3, { schemaRuns := 1 })

/-! ### Object-level model of `normalize` for the mutation question

Python statements `df[...] = ...` mutate the DataFrame object the local name
`df` refers to.  To settle whether the caller's frame is mutated, the frames
live in a heap and the statements of lines 95-116 are replayed as heap
writes. -/

/-- A heap of DataFrame objects; a Python name holds a reference into it. -/
abbrev Heap := List DataFrame

/-- An in-place update of the object at reference `w`. -/
def writeAt (h : Heap) (w : Nat) (f : DataFrame → DataFrame) : Heap :=
  match h.get? w with
  | some df => h.set w (f df)
  | none => h

/-- `df[c] = f(df[c])`, element-wise, as one DataFrame update. -/
def dfMapCol (c : String) (f : Value → Value) (df : DataFrame) : DataFrame :=
  { cols := addCol df.cols c, rows := df.rows.map (fun r => r.set c (f (r.get c))) }

/-- Line 100: `df["launch_year"] = to_datetime(df["launch_date"], ...).dt.year`. -/
def dfYearCol (df : DataFrame) : DataFrame :=
  { cols := addCol df.cols "launch_year",
    rows := df.rows.map (fun r => r.set "launch_year" (yearCell (r.get "launch_date"))) }

/-- Lines 106-111 as one DataFrame update. -/
def dfMissionFill (df : DataFrame) : DataFrame :=
  if !(df.cols.contains "mission_id") || df.rows.any (fun r => (r.get "mission_id").isNull) then
    { cols := addCol df.cols "mission_id", rows := mapWithIndex missionIdStep 0 df.rows }
  else df

/-- Lines 114-116 for one text column. -/
def dfStripCol (c : String) (df : DataFrame) : DataFrame :=
  if c ∈ df.cols then
    { cols := df.cols, rows := df.rows.map (fun r => r.set c (stripCell (r.get c))) }
  else df

/-- The in-place updates of lines 97-116, in source order. -/
def normalizeWrites : List (DataFrame → DataFrame) :=
  [dfMapCol "launch_date" dateCell, dfYearCol]
    ++ NUMERIC_COLS.map (fun c => dfMapCol c toNumericCell)
    ++ [dfMissionFill]
    ++ TEXT_COLS.map (fun c => dfStripCol c)

/-- `normalize` with Python's object semantics explicit: the caller's frame
sits in the heap at `ref`; line 95 (`df = df.rename(...).copy()`) allocates
a fresh object and rebinds the local name to it; the statements of
lines 97-116 then write in place through the local name.  Returns the heap
after the call and, on success, the reference the local name holds. -/
def normalizeProc (h : Heap) (ref : Nat) : Heap × Option Nat :=
  match h.get? ref with
  | none => (h, none)
  | some df =>
    let missing := EXPECTED_COLS.filter (fun c => !(df.cols.contains c))
    -- line 93: the ValueError raised before any assignment
    if missing ≠ [] then (h, none)
    else
      let w := h.length
      let h := h ++ [{ cols := df.cols.map renameCol, rows := df.rows.map renameRow }]
      let h := normalizeWrites.foldl (fun h f => writeAt h w f) h
      (h, some w)

/-! ### Auxiliary definitions for the claims -/

/-- A well-formed frame: every row carries exactly the frame's columns, and
the `COLUMN_MAP` renaming is injective on them (otherwise pandas `rename`
would produce duplicate column labels). -/
def DataFrame.WF (df : DataFrame) : Prop :=
  (∀ r ∈ df.rows, r.map Prod.fst = df.cols) ∧
  (∀ a ∈ df.cols, ∀ b ∈ df.cols, renameCol a = renameCol b → a = b)

/-- The machine-friendly mapped keys, the `COLUMN_MAP` values. -/
def MAPPED_COLS : List String := COLUMN_MAP.map Prod.snd

/-- The identifier amended claim C2 predicts for the row at 0-based
position `i` whose incoming identifier is `v`: when at least one identifier
in the column is null, null and empty identifiers become the synthesized
token; otherwise every identifier (the empty string included) is kept. -/
def missionIdSpec (anyNull : Bool) (i : Nat) (v : Value) : Value :=
  if anyNull then
    if v.isNull = true ∨ v = .str "" then .str (missionToken i) else v
  else v

/-- The entries the APOD loop accumulates from day offset `i` over `n`
remaining days: one entry per status-200 response, stopping at the first
request exception (whose handler keeps what was accumulated). -/
def apodSpecFrom (request : Nat → Outcome ApodJson) : Nat → Nat → List ApodEntry
  | _, 0 => []
  | i, n + 1 =>
    match request i with
    | .exn => []
    | .resp status b =>
      (if status = 200 then [mkApodEntry b] else []) ++ apodSpecFrom request (i + 1) n

/-- A source row with the 15 expected columns. -/
def mkSrcRow (mid mname ldate : Value) : Row :=
  [("Mission ID", mid),
   ("Mission Name", mname),
   ("Launch Date", ldate),
   ("Target Type", .str "Planet"),
   ("Target Name", .str "Mars"),
   ("Mission Type", .str "Orbiter"),
   ("Distance from Earth (light-years)", .str "0.5"),
   ("Mission Duration (years)", .str "2"),
   ("Mission Cost (billion USD)", .str "3.5"),
   ("Scientific Yield (points)", .str "40"),
   ("Crew Size", .str "0"),
   ("Mission Success (%)", .str "95"),
   ("Fuel Consumption (tons)", .str "120"),
   ("Payload Weight (tons)", .str "4.2"),
   ("Launch Vehicle", .str " Atlas V ")]

/-- One row whose identifier is the empty string while no identifier in the
column is null. -/
def dfEmptyId : DataFrame :=
  { cols := EXPECTED_COLS,
    rows := [mkSrcRow (.str "") (.str "A") (.str "2000-01-02")] }

/-- Three rows: a null identifier, an empty identifier, a kept one. -/
def dfThree : DataFrame :=
  { cols := EXPECTED_COLS,
    rows := [mkSrcRow .null (.str "A") (.str "2031-05-14"),
             mkSrcRow (.str "") (.str "B") (.str "not a date"),
             mkSrcRow (.str "M-77") (.str "C") (.str "1999-12-31")] }

/-- A source row whose crew-size cell does not parse as a number. -/
def rowBadNum : Row :=
  [("Mission ID", .str "M-9"),
   ("Mission Name", .str "D"),
   ("Launch Date", .str "2020-06-30"),
   ("Target Type", .str "T"),
   ("Target Name", .str "N"),
   ("Mission Type", .str "M"),
   ("Distance from Earth (light-years)", .str "1"),
   ("Mission Duration (years)", .str "2"),
   ("Mission Cost (billion USD)", .str "3"),
   ("Scientific Yield (points)", .str "4"),
   ("Crew Size", .str "many"),
   ("Mission Success (%)", .str "6"),
   ("Fuel Consumption (tons)", .str "7"),
   ("Payload Weight (tons)", .str "8"),
   ("Launch Vehicle", .str "V")]

/-- A one-row frame with an unparseable crew-size cell. -/
def dfBadNum : DataFrame := { cols := EXPECTED_COLS, rows := [rowBadNum] }

/-- The 15 expected columns plus an extra raw column `Notes`. -/
def dfExtra : DataFrame :=
  { cols := EXPECTED_COLS ++ ["Notes"],
    rows := [mkSrcRow (.str "M-1") (.str "A") (.str "2000-01-02") ++ [("Notes", .str "x")]] }

/-- A world whose network requests all raise. -/
def wFail (csv : DataFrame) : World :=
  { csv := csv, apodReq := fun _ => .exn, neoReq := .exn, exoReq := .exn,
    earthReq := fun _ => .exn }

/-- A decoded APOD body. -/
def apodPayloadA : ApodJson :=
  { date := some "2025-10-11", title := some "A Title", explanation := some "Words",
    url := some "https://apod/a", media_type := some "image" }

/-- APOD oracle whose first request succeeds and whose second raises. -/
def apodReqCex : Nat → Outcome ApodJson :=
  fun i => if i = 0 then .resp 200 apodPayloadA else .exn

/-- The database the first `ensure_database` run on an absent file produces
from `dfThree` with failing network oracles. -/
def db1c : DB :=
  ((ensure_database none (wFail dfThree)).toOption.getD (emptyDB, { schemaRuns := 0 })).1

/-- The run log of that first run. -/
def log1c : RunLog :=
  ((ensure_database none (wFail dfThree)).toOption.getD (emptyDB, { schemaRuns := 0 })).2

/-! ### Basic lemmas -/

theorem Row.get_set (r : Row) (c c' : String) (v : Value) :
    (r.set c v).get c' = if c = c' then v else r.get c' := by
  induction r with
  | nil => simp [Row.set, Row.get]
  | cons p r ih =>
    by_cases hp : p.1 = c <;> by_cases hq : c = c' <;>
      simp_all [Row.set, Row.get]

theorem any_congr_of_mem {α : Type} (l : List α) (p q : α → Bool)
    (h : ∀ x ∈ l, p x = q x) : l.any p = l.any q := by
  induction l with
  | nil => rfl
  | cons a l ih =>
    simp only [List.any_cons]
    rw [h a (by simp), ih (fun x hx => h x (by simp [hx]))]

theorem mapWithIndex_length {α β : Type} (f : Nat → α → β) (n : Nat) (l : List α) :
    (mapWithIndex f n l).length = l.length := by
  induction l generalizing n with
  | nil => rfl
  | cons a l ih => simp [mapWithIndex, ih]

theorem mapWithIndex_get? {α β : Type} (f : Nat → α → β) (n i : Nat) (l : List α) :
    (mapWithIndex f n l).get? i = (l.get? i).map (f (n + i)) := by
  induction l generalizing n i with
  | nil => simp [mapWithIndex]
  | cons a l ih =>
    cases i with
    | zero => simp [mapWithIndex]
    | succ i =>
      simp only [mapWithIndex, List.get?]
      rw [ih]
      have e : n + 1 + i = n + (i + 1) := by omega
      rw [e]

theorem mem_addCol_of_mem (cols : List String) (c a : String) (h : a ∈ cols) :
    a ∈ addCol cols c := by
  unfold addCol
  split <;> simp [h]

theorem addCol_of_mem (cols : List String) (c : String) (h : c ∈ cols) :
    addCol cols c = cols := if_pos h

theorem mem_foldl_addCol (L : List String) :
    ∀ cols a, a ∈ cols → a ∈ L.foldl addCol cols := by
  induction L with
  | nil => intro cols a h; exact h
  | cons b L ih =>
    intro cols a h
    exact ih _ a (mem_addCol_of_mem _ _ _ h)

theorem foldl_addCol_of_mem (L : List String) :
    ∀ cols, (∀ c ∈ L, c ∈ cols) → L.foldl addCol cols = cols := by
  induction L with
  | nil => intro cols _; rfl
  | cons b L ih =>
    intro cols h
    simp only [List.foldl_cons]
    rw [addCol_of_mem _ _ (h b (by simp)), ih _ (fun c hc => h c (by simp [hc]))]

/-! ### Cell tracking through the normalisation pipeline -/

theorem get_numFold_ne (L : List String) (c : String) :
    ∀ r : Row, c ∉ L →
      (L.foldl (fun r c' => r.set c' (toNumericCell (r.get c'))) r).get c = r.get c := by
  induction L with
  | nil => intro r _; rfl
  | cons a L ih =>
    intro r h
    have h1 : c ≠ a := fun e => h (by simp [e])
    have h2 : c ∉ L := fun m => h (by simp [m])
    simp only [List.foldl_cons]
    rw [ih _ h2, Row.get_set, if_neg (fun e => h1 e.symm)]

theorem get_numFold_mem (L : List String) (c : String) :
    ∀ r : Row, L.Nodup → c ∈ L →
      (L.foldl (fun r c' => r.set c' (toNumericCell (r.get c'))) r).get c
        = toNumericCell (r.get c) := by
  induction L with
  | nil => intro r _ hc; cases hc
  | cons a L ih =>
    intro r hnd hc
    simp only [List.foldl_cons]
    by_cases h : c = a
    · subst h
      have hcL : c ∉ L := (List.nodup_cons.mp hnd).1
      rw [get_numFold_ne L c _ hcL, Row.get_set, if_pos rfl]
    · have hcL : c ∈ L := by
        rcases List.mem_cons.mp hc with e | m
        · exact absurd e h
        · exact m
      rw [ih _ (List.nodup_cons.mp hnd).2 hcL, Row.get_set, if_neg (fun e => h e.symm)]

theorem get_stripFold_ne (L : List String) (cols : List String) (c : String) :
    ∀ r : Row, c ∉ L →
      (L.foldl (fun r c' => if c' ∈ cols then r.set c' (stripCell (r.get c')) else r) r).get c
        = r.get c := by
  induction L with
  | nil => intro r _; rfl
  | cons a L ih =>
    intro r h
    have h1 : c ≠ a := fun e => h (by simp [e])
    have h2 : c ∉ L := fun m => h (by simp [m])
    simp only [List.foldl_cons]
    rw [ih _ h2]
    by_cases ha : a ∈ cols
    · rw [if_pos ha, Row.get_set, if_neg (fun e => h1 e.symm)]
    · rw [if_neg ha]

theorem get_stripSteps_ne (cols : List String) (r : Row) (c : String) (h : c ∉ TEXT_COLS) :
    (stripSteps cols r).get c = r.get c :=
  get_stripFold_ne TEXT_COLS cols c r h

theorem get_renameRow (c : String) :
    ∀ r : Row, (∀ a ∈ r.map Prod.fst, renameCol a = renameCol c → a = c) →
      (renameRow r).get (renameCol c) = r.get c := by
  intro r
  induction r with
  | nil => intro _; rfl
  | cons p r ih =>
    intro h
    simp only [renameRow, List.map_cons, Row.get]
    by_cases hp : p.1 = c
    · rw [if_pos (by rw [hp]), if_pos hp]
    · have hne : renameCol p.1 ≠ renameCol c := fun e => hp (h p.1 (by simp) e)
      rw [if_neg hne, if_neg hp]
      exact ih (fun a ha e => h a (by simp [ha]) e)

theorem get_rowStage1_ld (r : Row) :
    (rowStage1 r).get "launch_date" = dateCell (r.get "launch_date") := by
  unfold rowStage1
  rw [get_numFold_ne _ _ _ (by decide), Row.get_set, if_neg (by decide),
    Row.get_set, if_pos rfl]

theorem get_rowStage1_ly (r : Row) :
    (rowStage1 r).get "launch_year" = yearCell (dateCell (r.get "launch_date")) := by
  unfold rowStage1
  rw [get_numFold_ne _ _ _ (by decide), Row.get_set, if_pos rfl, Row.get_set, if_pos rfl]

theorem get_rowStage1_num (r : Row) (c : String) (hc : c ∈ NUMERIC_COLS) :
    (rowStage1 r).get c = toNumericCell (r.get c) := by
  have hld : c ≠ "launch_date" := fun e => by rw [e] at hc; exact absurd hc (by decide)
  have hly : c ≠ "launch_year" := fun e => by rw [e] at hc; exact absurd hc (by decide)
  unfold rowStage1
  rw [get_numFold_mem _ _ _ (by decide) hc, Row.get_set, if_neg (fun e => hly e.symm),
    Row.get_set, if_neg (fun e => hld e.symm)]

theorem get_rowStage1_other (r : Row) (c : String)
    (h1 : c ≠ "launch_date") (h2 : c ≠ "launch_year") (h3 : c ∉ NUMERIC_COLS) :
    (rowStage1 r).get c = r.get c := by
  unfold rowStage1
  rw [get_numFold_ne _ _ _ h3, Row.get_set, if_neg (fun e => h2 e.symm),
    Row.get_set, if_neg (fun e => h1 e.symm)]

theorem get_missionIdMask_ne (i : Nat) (r : Row) (c : String) (h : c ≠ "mission_id") :
    (missionIdMask i r).get c = r.get c := by
  unfold missionIdMask
  split
  · rw [Row.get_set, if_neg (fun e => h e.symm)]
  · rfl

theorem get_missionIdMask_self (i : Nat) (r : Row) :
    (missionIdMask i r).get "mission_id" =
      if r.get "mission_id" = .str "" then .str (missionToken i) else r.get "mission_id" := by
  unfold missionIdMask
  split
  · rw [Row.get_set, if_pos rfl]
  · rfl

theorem get_missionIdStep_ne (i : Nat) (r : Row) (c : String) (h : c ≠ "mission_id") :
    (missionIdStep i r).get c = r.get c := by
  unfold missionIdStep
  rw [get_missionIdMask_ne _ _ _ h, Row.get_set, if_neg (fun e => h e.symm)]

theorem get_missionIdStep_self (i : Nat) (r : Row) :
    (missionIdStep i r).get "mission_id" =
      if (r.get "mission_id").isNull = true ∨ r.get "mission_id" = .str "" then
        .str (missionToken i)
      else r.get "mission_id" := by
  unfold missionIdStep
  rw [get_missionIdMask_self, Row.get_set, if_pos rfl]
  by_cases hn : (r.get "mission_id").isNull = true
  · simp [hn]
  · by_cases he : r.get "mission_id" = .str "" <;> simp [hn, he]

/-! ### The validated path of `normalize` -/

theorem filter_missing_eq_nil (df : DataFrame) (hcols : ∀ c ∈ EXPECTED_COLS, c ∈ df.cols) :
    EXPECTED_COLS.filter (fun c => !(df.cols.contains c)) = [] := by
  rw [List.filter_eq_nil_iff]
  intro c hc
  simp [hcols c hc]

theorem normalize_eq_ok (df : DataFrame) (hcols : ∀ c ∈ EXPECTED_COLS, c ∈ df.cols) :
    normalize df = .ok (normalizeOk df) := by
  unfold normalize
  simp only [filter_missing_eq_nil df hcols, ne_eq, not_true_eq_false, if_false,
    reduceIte]

theorem normalize_missing (df : DataFrame)
    (h : EXPECTED_COLS.filter (fun c => !(df.cols.contains c)) ≠ []) :
    normalize df
      = .error (.validation (EXPECTED_COLS.filter (fun c => !(df.cols.contains c)))) := by
  unfold normalize
  rw [if_pos h]

theorem mem_normCols2 (df : DataFrame) (c : String) (h : c ∈ df.cols.map renameCol) :
    c ∈ normCols2 df := by
  unfold normCols2
  exact mem_foldl_addCol _ _ _ (mem_addCol_of_mem _ _ _ (mem_addCol_of_mem _ _ _ h))

theorem renameCol_map : ∀ q ∈ COLUMN_MAP, renameCol q.1 = q.2 := by
  intro q hq
  simp only [COLUMN_MAP, List.mem_cons, List.not_mem_nil, or_false] at hq
  rcases hq with rfl | rfl | rfl | rfl | rfl | rfl | rfl | rfl | rfl | rfl | rfl | rfl |
    rfl | rfl | rfl <;> rfl

theorem mapped_mem_renamed (df : DataFrame) (hcols : ∀ c ∈ EXPECTED_COLS, c ∈ df.cols)
    (p : String × String) (hp : p ∈ COLUMN_MAP) : p.2 ∈ df.cols.map renameCol :=
  List.mem_map.mpr ⟨p.1, hcols p.1 (List.mem_map_of_mem _ hp), renameCol_map p hp⟩

theorem normGuard_eq_any (df : DataFrame) (hwf : df.WF)
    (hcols : ∀ c ∈ EXPECTED_COLS, c ∈ df.cols) :
    normGuard df = df.rows.any (fun r => (r.get "Mission ID").isNull) := by
  unfold normGuard
  have hmem : "mission_id" ∈ normCols2 df :=
    mem_normCols2 df _ (mapped_mem_renamed df hcols ("Mission ID", "mission_id") (by decide))
  have hcontains : (normCols2 df).contains "mission_id" = true :=
    List.elem_eq_true_of_mem hmem
  rw [hcontains]
  simp only [Bool.not_true, Bool.false_or]
  rw [List.any_map]
  apply any_congr_of_mem
  intro r hr
  have hmid : (rowStage1 (renameRow r)).get "mission_id" = r.get "Mission ID" := by
    rw [get_rowStage1_other _ _ (by decide) (by decide) (by decide)]
    have e : renameCol "Mission ID" = "mission_id" := by decide
    rw [← e]
    apply get_renameRow
    intro a ha hae
    rw [hwf.1 r hr] at ha
    exact hwf.2 a ha "Mission ID" (hcols _ (by decide)) hae
  simp only [Function.comp_apply, hmid]

theorem normalizeOk_rows_get? (df : DataFrame) (i : Nat) :
    (normalizeOk df).rows.get? i = (df.rows.get? i).map (normRow df i) := by
  unfold normalizeOk
  rw [mapWithIndex_get?]
  simp only [Nat.zero_add]

theorem normalizeOk_length (df : DataFrame) :
    (normalizeOk df).rows.length = df.rows.length := by
  unfold normalizeOk
  exact mapWithIndex_length _ _ _

/-- Cell values of a normalised row, in terms of the source row: the date
pair, the identifier, and every numeric column. -/
theorem normRow_get_cells (df : DataFrame) (hwf : df.WF)
    (hcols : ∀ c ∈ EXPECTED_COLS, c ∈ df.cols) (i : Nat) (r : Row) (hr : r ∈ df.rows) :
    (normRow df i r).get "launch_date" = dateCell (r.get "Launch Date") ∧
    (normRow df i r).get "launch_year" = yearCell (dateCell (r.get "Launch Date")) ∧
    (normRow df i r).get "mission_id"
      = missionIdSpec (df.rows.any (fun r0 => (r0.get "Mission ID").isNull)) i
          (r.get "Mission ID") ∧
    ∀ p ∈ COLUMN_MAP, p.2 ∈ NUMERIC_COLS →
      (normRow df i r).get p.2 = toNumericCell (r.get p.1) := by
  have hmap : ∀ q ∈ COLUMN_MAP, renameCol q.1 = q.2 := by decide
  have hren : ∀ c ∈ EXPECTED_COLS, (renameRow r).get (renameCol c) = r.get c := by
    intro c hc
    apply get_renameRow
    intro a ha hae
    rw [hwf.1 r hr] at ha
    exact hwf.2 a ha c (hcols c hc) hae
  have hmidFree : ∀ c : String, c ≠ "mission_id" →
      (if normGuard df then missionIdStep i (rowStage1 (renameRow r))
       else rowStage1 (renameRow r)).get c = (rowStage1 (renameRow r)).get c := by
    intro c hc
    split
    · exact get_missionIdStep_ne _ _ _ hc
    · rfl
  refine ⟨?_, ?_, ?_, ?_⟩
  · simp only [normRow]
    rw [get_stripSteps_ne _ _ _ (by decide), hmidFree _ (by decide), get_rowStage1_ld]
    have e : renameCol "Launch Date" = "launch_date" := by decide
    rw [← e, hren "Launch Date" (by decide)]
  · simp only [normRow]
    rw [get_stripSteps_ne _ _ _ (by decide), hmidFree _ (by decide), get_rowStage1_ly]
    have e : renameCol "Launch Date" = "launch_date" := by decide
    rw [← e, hren "Launch Date" (by decide)]
  · simp only [normRow]
    rw [get_stripSteps_ne _ _ _ (by decide)]
    have hmid1 : (rowStage1 (renameRow r)).get "mission_id" = r.get "Mission ID" := by
      rw [get_rowStage1_other _ _ (by decide) (by decide) (by decide)]
      have e : renameCol "Mission ID" = "mission_id" := by decide
      rw [← e, hren "Mission ID" (by decide)]
    have hg := normGuard_eq_any df hwf hcols
    by_cases hgb : normGuard df = true
    · rw [if_pos hgb, get_missionIdStep_self, hmid1]
      rw [hg] at hgb
      simp only [missionIdSpec, hgb, if_true]
    · rw [if_neg hgb, hmid1]
      rw [hg] at hgb
      simp [missionIdSpec, hgb]
  · intro p hp hnum
    have hntext : ∀ c ∈ NUMERIC_COLS, c ∉ TEXT_COLS := by decide
    have hnmid : "mission_id" ∉ NUMERIC_COLS := by decide
    simp only [normRow]
    rw [get_stripSteps_ne _ _ _ (hntext _ hnum),
      hmidFree _ (fun e => hnmid (e ▸ hnum)), get_rowStage1_num _ _ hnum,
      ← hmap p hp, hren p.1 (List.mem_map_of_mem _ hp)]

theorem normCols_eq (df : DataFrame) (hcols : ∀ c ∈ EXPECTED_COLS, c ∈ df.cols)
    (hly : "launch_year" ∉ df.cols.map renameCol) :
    normCols df = df.cols.map renameCol ++ ["launch_year"] := by
  have hld : "launch_date" ∈ df.cols.map renameCol :=
    mapped_mem_renamed df hcols ("Launch Date", "launch_date") (by decide)
  have hnum : ∀ c ∈ NUMERIC_COLS, c ∈ df.cols.map renameCol := by
    intro c hc
    simp only [NUMERIC_COLS, List.mem_cons, List.not_mem_nil, or_false] at hc
    rcases hc with rfl | rfl | rfl | rfl | rfl | rfl | rfl | rfl
    · exact mapped_mem_renamed df hcols
        ("Distance from Earth (light-years)", "distance_ly") (by decide)
    · exact mapped_mem_renamed df hcols ("Mission Duration (years)", "duration_years") (by decide)
    · exact mapped_mem_renamed df hcols
        ("Mission Cost (billion USD)", "cost_billion_usd") (by decide)
    · exact mapped_mem_renamed df hcols
        ("Scientific Yield (points)", "scientific_yield") (by decide)
    · exact mapped_mem_renamed df hcols ("Crew Size", "crew_size") (by decide)
    · exact mapped_mem_renamed df hcols ("Mission Success (%)", "success_pct") (by decide)
    · exact mapped_mem_renamed df hcols
        ("Fuel Consumption (tons)", "fuel_consumption_tons") (by decide)
    · exact mapped_mem_renamed df hcols
        ("Payload Weight (tons)", "payload_weight_tons") (by decide)
  have h2 : normCols2 df = df.cols.map renameCol ++ ["launch_year"] := by
    unfold normCols2
    rw [addCol_of_mem _ _ hld]
    have hstep : addCol (df.cols.map renameCol) "launch_year"
        = df.cols.map renameCol ++ ["launch_year"] := by
      unfold addCol
      rw [if_neg hly]
    rw [hstep]
    exact foldl_addCol_of_mem _ _ (fun c hc => List.mem_append_left _ (hnum c hc))
  have hmid : "mission_id" ∈ df.cols.map renameCol ++ ["launch_year"] :=
    List.mem_append_left _
      (mapped_mem_renamed df hcols ("Mission ID", "mission_id") (by decide))
  unfold normCols
  rw [h2]
  split
  · exact addCol_of_mem _ _ hmid
  · rfl

/-! ### Heap lemmas for the mutation claim -/

theorem writeAt_get?_ne (h : Heap) (w : Nat) (f : DataFrame → DataFrame) (r : Nat)
    (hne : r ≠ w) : (writeAt h w f).get? r = h.get? r := by
  unfold writeAt
  split
  · exact List.get?_set_ne _ _ (fun e => hne e.symm)
  · rfl

theorem foldl_writeAt_get?_ne (L : List (DataFrame → DataFrame)) (w r : Nat) (hne : r ≠ w) :
    ∀ h : Heap, (L.foldl (fun h f => writeAt h w f) h).get? r = h.get? r := by
  induction L with
  | nil => intro h; rfl
  | cons f L ih =>
    intro h
    simp only [List.foldl_cons]
    rw [ih _, writeAt_get?_ne _ _ _ _ hne]

/-! ### The APOD accumulation lemma -/

theorem apodLoop_eq (request : Nat → Outcome ApodJson) :
    ∀ (n i : Nat) (acc : List ApodEntry),
      apodLoop request i n acc = acc ++ apodSpecFrom request i n := by
  intro n
  induction n with
  | zero => intro i acc; simp [apodLoop, apodSpecFrom]
  | succ n ih =>
    intro i acc
    cases e : request i with
    | exn => simp [apodLoop, apodSpecFrom, e]
    | resp status b =>
      by_cases hs : status = 200 <;> simp [apodLoop, apodSpecFrom, e, hs, ih]

theorem fetch_nasa_apod_eq (days : Nat) (request : Nat → Outcome ApodJson) :
    fetch_nasa_apod days request = apodSpecFrom request 0 days := by
  unfold fetch_nasa_apod
  rw [apodLoop_eq]
  exact List.nil_append _

/-! ### `ensure_database` branch lemmas -/

theorem ensure_database_skip (db : DB) (w : World) (hpop : populated (some db) = true) :
    ensure_database (some db) w = .ok (db, { schemaRuns := 0 }) := by
  unfold ensure_database
  rw [hpop]
  rfl

theorem ensure_database_rebuild (store : Option DB) (w : World)
    (hpop : populated store = false)
    (hcols : ∀ c ∈ EXPECTED_COLS, c ∈ w.csv.cols) :
    ensure_database store w = .ok
      ({ missions := some (normalizeOk w.csv).rows,
         apod := (store.getD emptyDB).apod ++ fetch_nasa_apod 7 w.apodReq,
         neo := (store.getD emptyDB).neo ++ fetch_nasa_neo w.neoReq,
         exoplanet := (store.getD emptyDB).exoplanet ++ fetch_nasa_exoplanet w.exoReq,
         earth_imagery := (store.getD emptyDB).earth_imagery
           ++ fetch_nasa_earth_imagery w.earthReq },
       { schemaRuns := 1 }) := by
  unfold ensure_database
  rw [hpop]
  simp only [Bool.false_eq_true, if_false]
  rw [normalize_eq_ok w.csv hcols]
  simp [recreate_schema, insert_data, store_nasa_data]

set_option maxHeartbeats 1000000 in
theorem renameInj_expected :
    ∀ a ∈ EXPECTED_COLS, ∀ b ∈ EXPECTED_COLS, renameCol a = renameCol b → a = b := by
  decide

theorem WF_expected (df : DataFrame) (hc : df.cols = EXPECTED_COLS)
    (hrows : ∀ r ∈ df.rows, r.map Prod.fst = EXPECTED_COLS) : df.WF := by
  constructor
  · intro r hr
    rw [hc]
    exact hrows r hr
  · intro a ha b hb e
    rw [hc] at ha hb
    exact renameInj_expected a ha b hb e

/-! ### The claims -/

/-- C1: for every input frame lacking at least one of the 15 expected
human-readable column names, `normalize` fails with a Validation error whose
payload lists exactly the set of missing expected names, and yields no
output frame — so no renaming or coercion is performed. -/
theorem C1_missing_columns (df : DataFrame) (h : ∃ c ∈ EXPECTED_COLS, c ∉ df.cols) :
    normalize df
        = .error (.validation (EXPECTED_COLS.filter (fun c => !(df.cols.contains c)))) ∧
    ∀ c, c ∈ EXPECTED_COLS.filter (fun c => !(df.cols.contains c))
        ↔ c ∈ EXPECTED_COLS ∧ c ∉ df.cols := by
  have hne : EXPECTED_COLS.filter (fun c => !(df.cols.contains c)) ≠ [] := by
    obtain ⟨c, hc, hnc⟩ := h
    intro hnil
    have hmem : c ∈ EXPECTED_COLS.filter (fun c => !(df.cols.contains c)) := by
      rw [List.mem_filter]
      exact ⟨hc, by simp [hnc]⟩
    rw [hnil] at hmem
    exact List.not_mem_nil _ hmem
  refine ⟨normalize_missing df hne, ?_⟩
  intro c
  rw [List.mem_filter]
  simp

/-- Witness for C1 at the empty frame: all 15 expected names are missing. -/
theorem C1_missing_columns_w :
    normalize ⟨[], []⟩
      = .error (.validation (EXPECTED_COLS.filter
          (fun c => !((⟨[], []⟩ : DataFrame).cols.contains c)))) :=
  (C1_missing_columns ⟨[], []⟩ ⟨"Mission ID", by decide, by decide⟩).1

/-- C2 as stated fails on the code: in a frame whose identifier column
contains an empty string but no null, the guard of line 107 is false, so the
empty identifier is kept instead of becoming `MSN-0001`. -/
theorem C2_cex :
    (normalize dfEmptyId).toOption.map (fun out => out.rows.map (fun r => r.get "mission_id"))
        = some [.str ""] ∧
    (normalize dfEmptyId).toOption.map (fun out => out.rows.map (fun r => r.get "mission_id"))
        ≠ some [.str (missionToken 0)] := by
  constructor <;> decide

/-- C2 amended: when the identifier column contains at least one null, every
null or empty identifier of row `i` (0-based) becomes `MSN-` + the 1-based
position zero-padded to width 4, and other identifiers are kept; when the
column contains no null, every identifier — the empty string included — is
kept unchanged.  (`missionIdSpec` states exactly this.) -/
theorem C2_mission_id (df : DataFrame) (hwf : df.WF)
    (hcols : ∀ c ∈ EXPECTED_COLS, c ∈ df.cols) (i : Nat) (r : Row)
    (hr : df.rows.get? i = some r) :
    normalize df = .ok (normalizeOk df) ∧
    ((normalizeOk df).rows.get? i).map (fun r' => r'.get "mission_id")
      = some (missionIdSpec (df.rows.any (fun r0 => (r0.get "Mission ID").isNull)) i
          (r.get "Mission ID")) := by
  refine ⟨normalize_eq_ok df hcols, ?_⟩
  rw [normalizeOk_rows_get?, hr]
  have hm := (normRow_get_cells df hwf hcols i r (List.get?_mem hr)).2.2.1
  simp only [Option.map_some', hm]

/-- Witness for C2 at `dfThree`: row 2 (0-based 1) has the empty identifier
and the column has a null, so it becomes `MSN-0002`. -/
theorem C2_mission_id_w :
    ((normalizeOk dfThree).rows.get? 1).map (fun r' => r'.get "mission_id")
      = some (missionIdSpec (dfThree.rows.any (fun r0 => (r0.get "Mission ID").isNull)) 1
          ((mkSrcRow (.str "") (.str "B") (.str "not a date")).get "Mission ID")) ∧
    missionIdSpec (dfThree.rows.any (fun r0 => (r0.get "Mission ID").isNull)) 1
        ((mkSrcRow (.str "") (.str "B") (.str "not a date")).get "Mission ID")
      = .str "MSN-0002" :=
  ⟨(C2_mission_id dfThree (WF_expected dfThree rfl (by decide)) (by decide) 1
      (mkSrcRow (.str "") (.str "B") (.str "not a date")) rfl).2,
   by decide⟩

/-- C5: for every input row of an accepted frame, `launch_date` and
`launch_year` are derived from parsing the source `Launch Date` cell; in
particular the cell `2031-05-14` yields the date string `2031-05-14` and
year 2031, and an unparseable cell yields a null date and a null year. -/
theorem C5_launch_year (df : DataFrame) (hwf : df.WF)
    (hcols : ∀ c ∈ EXPECTED_COLS, c ∈ df.cols) (i : Nat) (r : Row)
    (hr : df.rows.get? i = some r) :
    normalize df = .ok (normalizeOk df) ∧
    ((normalizeOk df).rows.get? i).map
        (fun r' => (r'.get "launch_date", r'.get "launch_year"))
      = some (dateCell (r.get "Launch Date"), yearCell (dateCell (r.get "Launch Date"))) ∧
    (r.get "Launch Date" = .str "2031-05-14" →
      ((normalizeOk df).rows.get? i).map
          (fun r' => (r'.get "launch_date", r'.get "launch_year"))
        = some (.str "2031-05-14", .num 2031)) ∧
    (parseDateCell (r.get "Launch Date") = none →
      ((normalizeOk df).rows.get? i).map
          (fun r' => (r'.get "launch_date", r'.get "launch_year"))
        = some (.null, .null)) := by
  have hc := normRow_get_cells df hwf hcols i r (List.get?_mem hr)
  have hbase : ((normalizeOk df).rows.get? i).map
      (fun r' => (r'.get "launch_date", r'.get "launch_year"))
      = some (dateCell (r.get "Launch Date"), yearCell (dateCell (r.get "Launch Date"))) := by
    rw [normalizeOk_rows_get?, hr]
    simp only [Option.map_some', hc.1, hc.2.1]
  refine ⟨normalize_eq_ok df hcols, hbase, ?_, ?_⟩
  · intro hld
    rw [hbase, hld]
    decide
  · intro hbad
    rw [hbase]
    have hd : dateCell (r.get "Launch Date") = .null := by
      unfold dateCell
      rw [hbad]
    rw [hd]
    rfl

/-- Witness for C5 at `dfThree`, row 1 (0-based 0), whose launch date is
`2031-05-14`. -/
theorem C5_launch_year_w :
    ((normalizeOk dfThree).rows.get? 0).map
        (fun r' => (r'.get "launch_date", r'.get "launch_year"))
      = some (.str "2031-05-14", .num 2031) :=
  (C5_launch_year dfThree (WF_expected dfThree rfl (by decide)) (by decide) 0
      (mkSrcRow .null (.str "A") (.str "2031-05-14")) rfl).2.2.1 rfl

/-- C6: for every input row of an accepted frame and each of the eight
numeric columns, a string cell that does not parse as a number becomes null
in the output, and `normalize` raises nothing — it returns the normalised
frame. -/
theorem C6_numeric_coercion (df : DataFrame) (hwf : df.WF)
    (hcols : ∀ c ∈ EXPECTED_COLS, c ∈ df.cols) (i : Nat) (r : Row)
    (hr : df.rows.get? i = some r) (p : String × String) (hp : p ∈ COLUMN_MAP)
    (hnum : p.2 ∈ NUMERIC_COLS) (s : String) (hs : r.get p.1 = .str s)
    (hbad : parseNum s = none) :
    normalize df = .ok (normalizeOk df) ∧
    ((normalizeOk df).rows.get? i).map (fun r' => r'.get p.2) = some .null := by
  refine ⟨normalize_eq_ok df hcols, ?_⟩
  rw [normalizeOk_rows_get?, hr]
  have hm := (normRow_get_cells df hwf hcols i r (List.get?_mem hr)).2.2.2 p hp hnum
  simp only [Option.map_some', hm, hs, toNumericCell, hbad]

/-- Witness for C6 at a frame whose crew-size cell is `many`. -/
theorem C6_numeric_coercion_w :
    ((normalizeOk dfBadNum).rows.get? 0).map (fun r' => r'.get "crew_size")
      = some .null :=
  (C6_numeric_coercion dfBadNum (WF_expected dfBadNum rfl (by decide)) (by decide) 0
      rowBadNum rfl ("Crew Size", "crew_size") (by decide) (by decide) "many" (by decide)
      (by decide)).2

/-- C3: when a run of "ensure ready" succeeds leaving at least one mission
row, a second run on the resulting store is a complete no-op: it returns the
same database value (mission rows, auxiliary tables all unchanged) and the
schema script is not executed. -/
theorem C3_idempotent (store : Option DB) (w w2 : World) (db1 : DB) (log1 : RunLog)
    (h1 : ensure_database store w = .ok (db1, log1))
    (h2 : 1 ≤ (db1.missions.getD []).length) :
    ensure_database (some db1) w2 = .ok (db1, { schemaRuns := 0 }) := by
  have hpop : populated (some db1) = true := by
    cases e : db1.missions with
    | none => rw [e] at h2; simp at h2
    | some rows =>
      rw [e] at h2
      simp only [Option.getD_some] at h2
      simp only [populated, e, bne_iff_ne, ne_eq]
      omega
  exact ensure_database_skip db1 w2 hpop

/-- Witness for C3: a first run from an absent file on `dfThree`, then a
second run on its result. -/
theorem C3_idempotent_w :
    ensure_database (some db1c) (wFail dfThree) = .ok (db1c, { schemaRuns := 0 }) :=
  C3_idempotent none (wFail dfThree) (wFail dfThree) db1c log1c rfl (by decide)

/-- C4: from an unpopulated store, a load of a CSV frame carrying all
expected columns succeeds and leaves the mission table holding exactly the
normalised rows: one per source row, the row at position `i` being the
row-wise mapping `normRow` of the source row at `i`. -/
theorem C4_round_trip (store : Option DB) (w : World)
    (hpop : populated store = false)
    (hcols : ∀ c ∈ EXPECTED_COLS, c ∈ w.csv.cols) :
    (ensure_database store w).toOption.map (fun p => p.1.missions)
        = some (some (normalizeOk w.csv).rows) ∧
    (normalizeOk w.csv).rows.length = w.csv.rows.length ∧
    ∀ i, (normalizeOk w.csv).rows.get? i = (w.csv.rows.get? i).map (normRow w.csv i) := by
  refine ⟨?_, normalizeOk_length _, fun i => normalizeOk_rows_get? _ i⟩
  rw [ensure_database_rebuild store w hpop hcols]
  rfl

/-- Witness for C4 at `dfThree` (3 rows) with failing network oracles. -/
theorem C4_round_trip_w :
    (ensure_database none (wFail dfThree)).toOption.map (fun p => p.1.missions)
        = some (some (normalizeOk dfThree).rows) ∧
    (normalizeOk dfThree).rows.length = 3 :=
  ⟨(C4_round_trip none (wFail dfThree) rfl (by decide)).1,
   (C4_round_trip none (wFail dfThree) rfl (by decide)).2.1⟩

/-- C7 as stated fails on the code: the APOD `try` wraps the whole day
loop, so a request failure after a successful day keeps the entries already
accumulated — the sub-operation result is not empty. -/
theorem C7_cex :
    apodReqCex 1 = .exn ∧
    fetch_nasa_apod 7 apodReqCex = [mkApodEntry apodPayloadA] ∧
    fetch_nasa_apod 7 apodReqCex ≠ [] := by
  refine ⟨rfl, ?_, ?_⟩ <;> decide

/-- C7 amended: each fetch sub-operation catches every error internally and
returns the entries accumulated before the first raised error — in
particular a failure of the daily-image fetch's first request yields an
empty list — and the store phase always proceeds: whatever the four oracles
return, "ensure ready" reaches the insert phase, appends each sub-fetch's
result to its auxiliary table, and stores the mission rows. -/
theorem C7_fetch_isolation (store : Option DB) (w : World)
    (hpop : populated store = false)
    (hcols : ∀ c ∈ EXPECTED_COLS, c ∈ w.csv.cols) :
    (∀ days req, fetch_nasa_apod days req = apodSpecFrom req 0 days) ∧
    (∀ req : Nat → Outcome ApodJson, req 0 = .exn → fetch_nasa_apod 7 req = []) ∧
    ensure_database store w = .ok
      ({ missions := some (normalizeOk w.csv).rows,
         apod := (store.getD emptyDB).apod ++ fetch_nasa_apod 7 w.apodReq,
         neo := (store.getD emptyDB).neo ++ fetch_nasa_neo w.neoReq,
         exoplanet := (store.getD emptyDB).exoplanet ++ fetch_nasa_exoplanet w.exoReq,
         earth_imagery := (store.getD emptyDB).earth_imagery
           ++ fetch_nasa_earth_imagery w.earthReq },
       { schemaRuns := 1 }) := by
  refine ⟨fun days req => fetch_nasa_apod_eq days req, ?_,
    ensure_database_rebuild store w hpop hcols⟩
  intro req hreq
  rw [fetch_nasa_apod_eq]
  simp [apodSpecFrom, hreq]

/-- Witness for C7: with every request failing, the APOD sub-operation
returns the empty list (and, per the theorem's last conjunct applied at
`dfThree`, the run still reaches the insert phase). -/
theorem C7_fetch_isolation_w :
    fetch_nasa_apod 7 (fun _ => .exn) = [] :=
  (C7_fetch_isolation none (wFail dfThree) rfl (by decide)).2.1 (fun _ => .exn) rfl

/-- C8 as stated fails on the code: `rename` does not drop unexpected
source columns, so an extra raw column (`Notes`) survives normalisation
alongside the 15 mapped keys and the derived `launch_year`. -/
theorem C8_cex :
    (normalize dfExtra).toOption.map DataFrame.cols
        = some (MAPPED_COLS ++ ["Notes", "launch_year"]) ∧
    "Notes" ∉ MAPPED_COLS ++ ["launch_year"] := by
  constructor <;> decide

/-- C8 amended: for an accepted frame the output columns are the source
columns renamed (the 15 expected names become the mapped keys, extra
columns keep their raw names) followed by the derived `launch_year`; in
particular, when the source columns are exactly the 15 expected ones the
output column set is exactly the 15 mapped keys plus `launch_year`. -/
theorem C8_output_columns (df : DataFrame)
    (hcols : ∀ c ∈ EXPECTED_COLS, c ∈ df.cols)
    (hly : "launch_year" ∉ df.cols.map renameCol) :
    normalize df = .ok (normalizeOk df) ∧
    (normalizeOk df).cols = df.cols.map renameCol ++ ["launch_year"] ∧
    (df.cols = EXPECTED_COLS → (normalizeOk df).cols = MAPPED_COLS ++ ["launch_year"]) := by
  have hc : (normalizeOk df).cols = df.cols.map renameCol ++ ["launch_year"] := by
    simp only [normalizeOk]
    exact normCols_eq df hcols hly
  refine ⟨normalize_eq_ok df hcols, hc, ?_⟩
  intro he
  rw [hc, he]
  decide

/-- Witness for C8 at `dfThree`, whose columns are exactly the expected 15. -/
theorem C8_output_columns_w :
    (normalizeOk dfThree).cols = MAPPED_COLS ++ ["launch_year"] :=
  (C8_output_columns dfThree (by decide) (by decide)).2.2 rfl

/-- C9: an explicit non-URL CSV path absent on disk fails with the NotFound
error carrying that path; with no explicit path, the reader uses the
configured local default when it exists on disk and falls back to the
configured remote location exactly when it does not. -/
theorem C9_input_resolution :
    (∀ (p : String) (diskHas : String → Bool),
      p ≠ "" →
      strStartsWith (strToLower p) "http://" = false →
      strStartsWith (strToLower p) "https://" = false →
      diskHas p = false →
      read_input (some p) diskHas = .error (.notFound p)) ∧
    (∀ diskHas : String → Bool, diskHas DEFAULT_CSV_PATH = true →
      read_input none diskHas = .ok (.fromLocal DEFAULT_CSV_PATH)) ∧
    (∀ diskHas : String → Bool, diskHas DEFAULT_CSV_PATH = false →
      read_input none diskHas = .ok (.fromUrl DEFAULT_CSV_URL)) := by
  refine ⟨?_, ?_, ?_⟩
  · intro p diskHas hp h1 h2 hd
    have hpe : p.isEmpty = false :=
      Bool.eq_false_iff.mpr (fun hb => hp ((String.isEmpty_iff p).mp hb))
    simp [read_input, hpe, h1, h2, hd]
  · intro diskHas hd
    simp only [read_input, readFallback, hd]
    rw [if_pos (by decide)]
  · intro diskHas hd
    simp only [read_input, readFallback, hd]
    simp

/-- Witness for C9: a missing explicit path, then both fallback branches. -/
theorem C9_input_resolution_w :
    read_input (some "missing.csv") (fun _ => false) = .error (.notFound "missing.csv") ∧
    read_input none (fun _ => true) = .ok (.fromLocal DEFAULT_CSV_PATH) ∧
    read_input none (fun _ => false) = .ok (.fromUrl DEFAULT_CSV_URL) :=
  ⟨C9_input_resolution.1 "missing.csv" (fun _ => false) (by decide) (by decide) (by decide) rfl,
   C9_input_resolution.2.1 (fun _ => true) rfl,
   C9_input_resolution.2.2 (fun _ => false) rfl⟩

/-- C10: `normalize` never mutates the caller's frame.  With Python's
object semantics made explicit — the caller's frame at heap reference
`ref`, line 95 allocating a fresh copy, lines 97-116 writing through the
local name only — the object at `ref` is unchanged after the call, whether
it validates or not. -/
theorem C10_no_mutation (h : Heap) (ref : Nat) (href : ref < h.length) :
    (normalizeProc h ref).1.get? ref = h.get? ref := by
  simp only [normalizeProc]
  split
  · rfl
  · split
    · rfl
    · rw [foldl_writeAt_get?_ne _ _ _ (Nat.ne_of_lt href), List.get?_append href]

/-- Witness for C10 at a one-frame heap. -/
theorem C10_no_mutation_w :
    (normalizeProc [dfThree] 0).1.get? 0 = [dfThree].get? 0 :=
  C10_no_mutation [dfThree] 0 (by decide)

/-! ### Agreement of the heap replay with `normalizeOk`

The statement-level model `normalizeProc` and the functional `normalize`
are two renderings of lines 90-118; the lemmas below prove they compute
the same frame, so the mutation analysis of C10 is about the same
normalisation. -/

theorem dfMissionFill_eq (d : DataFrame) :
    dfMissionFill d
      = if !(d.cols.contains "mission_id")
            || d.rows.any (fun r => (r.get "mission_id").isNull) then
          ⟨addCol d.cols "mission_id", mapWithIndex missionIdStep 0 d.rows⟩
        else d := rfl

theorem normGuard_unfold (df : DataFrame) :
    (!((normCols2 df).contains "mission_id")
      || (df.rows.map (fun r => rowStage1 (renameRow r))).any
          (fun r => (r.get "mission_id").isNull)) = normGuard df := rfl

theorem missionFill_step (df : DataFrame) :
    dfMissionFill ⟨normCols2 df, df.rows.map (fun r => rowStage1 (renameRow r))⟩
      = ⟨normCols df,
         if normGuard df then
           mapWithIndex missionIdStep 0 (df.rows.map (fun r => rowStage1 (renameRow r)))
         else df.rows.map (fun r => rowStage1 (renameRow r))⟩ := by
  rewrite [dfMissionFill_eq]
  dsimp only
  rewrite [normGuard_unfold]
  by_cases hg : normGuard df = true
  · rewrite [if_pos hg, if_pos hg]
    unfold normCols
    rewrite [if_pos hg]
    rfl
  · rewrite [if_neg hg, if_neg hg]
    unfold normCols
    rewrite [if_neg hg]
    rfl

theorem dfStripChain (L : List String) :
    ∀ (cols : List String) (rows : List Row),
      ((L.map dfStripCol).foldl (fun d f => f d) ⟨cols, rows⟩ : DataFrame)
        = ⟨cols, rows.map (fun r =>
            L.foldl (fun r c => if c ∈ cols then r.set c (stripCell (r.get c)) else r) r)⟩ := by
  induction L with
  | nil =>
    intro cols rows
    simp
  | cons c L ih =>
    intro cols rows
    simp only [List.map_cons, List.foldl_cons]
    by_cases hc : c ∈ cols
    · simp only [dfStripCol, if_pos hc]
      rw [ih cols]
      simp only [List.map_map]
      congr 1
    · simp only [dfStripCol, if_neg hc]
      rw [ih cols]

theorem stage1_chain (df : DataFrame) :
    (dfMapCol "payload_weight_tons" toNumericCell
      (dfMapCol "fuel_consumption_tons" toNumericCell
        (dfMapCol "success_pct" toNumericCell
          (dfMapCol "crew_size" toNumericCell
            (dfMapCol "scientific_yield" toNumericCell
              (dfMapCol "cost_billion_usd" toNumericCell
                (dfMapCol "duration_years" toNumericCell
                  (dfMapCol "distance_ly" toNumericCell
                    (dfYearCol
                      (dfMapCol "launch_date" dateCell
                        ⟨df.cols.map renameCol, df.rows.map renameRow⟩))))))))))
      = ⟨normCols2 df, df.rows.map (fun r => rowStage1 (renameRow r))⟩ := by
  simp only [dfMapCol, dfYearCol, List.map_map]
  rw [DataFrame.mk.injEq]
  refine ⟨?_, ?_⟩
  · simp only [normCols2, NUMERIC_COLS, List.foldl_cons, List.foldl_nil]
  · congr 1

theorem mapWithIndex_map_right {α β γ : Type} (g : α → β) (f : Nat → β → γ) :
    ∀ (n : Nat) (l : List α),
      mapWithIndex f n (l.map g) = mapWithIndex (fun i a => f i (g a)) n l := by
  intro n l
  induction l generalizing n with
  | nil => rfl
  | cons a l ih =>
    simp only [List.map_cons, mapWithIndex]
    rw [ih]

theorem map_mapWithIndex {α β γ : Type} (f : Nat → α → β) (g : β → γ) :
    ∀ (n : Nat) (l : List α),
      (mapWithIndex f n l).map g = mapWithIndex (fun i a => g (f i a)) n l := by
  intro n l
  induction l generalizing n with
  | nil => rfl
  | cons a l ih =>
    simp only [List.map_cons, mapWithIndex]
    rw [ih]

theorem map_eq_mapWithIndex {α β : Type} (g : α → β) :
    ∀ (n : Nat) (l : List α), l.map g = mapWithIndex (fun _ a => g a) n l := by
  intro n l
  induction l generalizing n with
  | nil => rfl
  | cons a l ih =>
    simp only [List.map_cons, mapWithIndex]
    rw [ih]

theorem mapWithIndex_congr {α β : Type} (f g : Nat → α → β)
    (h : ∀ i a, f i a = g i a) :
    ∀ (n : Nat) (l : List α), mapWithIndex f n l = mapWithIndex g n l := by
  intro n l
  induction l generalizing n with
  | nil => rfl
  | cons a l ih =>
    simp only [mapWithIndex]
    rw [h, ih]

/-- Replaying the writes of lines 97-116 on the renamed copy produces
exactly the `normalizeOk` frame. -/
theorem normalizeWrites_foldl_eq (df : DataFrame) :
    normalizeWrites.foldl (fun d f => f d) ⟨df.cols.map renameCol, df.rows.map renameRow⟩
      = normalizeOk df := by
  have hsplit : normalizeWrites.foldl (fun d f => f d)
      (⟨df.cols.map renameCol, df.rows.map renameRow⟩ : DataFrame)
      = (TEXT_COLS.map dfStripCol).foldl (fun d f => f d)
          (dfMissionFill
            (dfMapCol "payload_weight_tons" toNumericCell
              (dfMapCol "fuel_consumption_tons" toNumericCell
                (dfMapCol "success_pct" toNumericCell
                  (dfMapCol "crew_size" toNumericCell
                    (dfMapCol "scientific_yield" toNumericCell
                      (dfMapCol "cost_billion_usd" toNumericCell
                        (dfMapCol "duration_years" toNumericCell
                          (dfMapCol "distance_ly" toNumericCell
                            (dfYearCol
                              (dfMapCol "launch_date" dateCell
                                ⟨df.cols.map renameCol, df.rows.map renameRow⟩))))))))))) := by
    simp only [normalizeWrites, NUMERIC_COLS, List.map_cons, List.map_nil,
      List.cons_append, List.nil_append, List.foldl_cons, List.foldl_nil]
  rewrite [hsplit, stage1_chain, missionFill_step, dfStripChain]
  unfold normalizeOk
  rewrite [DataFrame.mk.injEq]
  refine ⟨rfl, ?_⟩
  by_cases hg : normGuard df = true
  · rewrite [if_pos hg, mapWithIndex_map_right, map_mapWithIndex]
    apply mapWithIndex_congr
    intro i r
    simp only [normRow]
    rewrite [if_pos hg]
    rfl
  · rewrite [if_neg hg, List.map_map, map_eq_mapWithIndex _ 0]
    apply mapWithIndex_congr
    intro i r
    simp only [Function.comp_apply, normRow]
    rewrite [if_neg hg]
    rfl

theorem writeAt_get?_self (h : Heap) (w : Nat) (f : DataFrame → DataFrame) (x : DataFrame)
    (hx : h.get? w = some x) : (writeAt h w f).get? w = some (f x) := by
  unfold writeAt
  rw [hx, List.get?_set_eq, hx]
  rfl

theorem foldl_writeAt_get?_self (L : List (DataFrame → DataFrame)) (w : Nat) :
    ∀ (h : Heap) (x : DataFrame), h.get? w = some x →
      (L.foldl (fun h f => writeAt h w f) h).get? w
        = some (L.foldl (fun d f => f d) x) := by
  induction L with
  | nil => intro h x hx; exact hx
  | cons f L ih =>
    intro h x hx
    simp only [List.foldl_cons]
    exact ih _ _ (writeAt_get?_self h w f x hx)

/-- On a validated frame, the object `normalizeProc` leaves at the fresh
reference is exactly `normalizeOk` of the caller's frame, and the local
name ends up holding that fresh reference. -/
theorem normalizeProc_object (h : Heap) (ref : Nat) (df : DataFrame)
    (hdf : h.get? ref = some df)
    (hmissing : EXPECTED_COLS.filter (fun c => !(df.cols.contains c)) = []) :
    (normalizeProc h ref).1.get? h.length = some (normalizeOk df) ∧
    (normalizeProc h ref).2 = some h.length := by
  simp only [normalizeProc, hdf]
  rw [if_neg (by rw [hmissing]; exact fun hne => hne rfl)]
  constructor
  · rw [foldl_writeAt_get?_self _ _ _ _ (List.get?_concat_length h _),
      normalizeWrites_foldl_eq]
  · rfl

end NasaLoad
